import Mathlib

/-!
Verification of the MAVSDK-Python-UDP-From-Stream sender examples.

The two source files `examples/attitude_sender_example.py` and
`examples/body_velocity_sender_example.py` are shallowly embedded below:
numeric control values become rationals, each Python handler function
becomes a Lean function on an explicit state record, and the pygame
event-loop dispatch in `main` becomes a `step` function over a small
event alphabet (KEYDOWN / KEYUP of the relevant keys).  Packet emission
performed synchronously by a handler is modelled by an `emit` function
returning the list of packets that the handler sends.
-/

/-- Mode tag of a command packet, mirroring `SetpointMode` as used by the
two senders (`ATTITUDE_CONTROL` in the attitude sender, `VELOCITY_BODY`
in the body-velocity sender). -/
inductive SetpointMode where
  | ATTITUDE_CONTROL
  | VELOCITY_BODY
deriving DecidableEq, Repr

/-- Logical command packet, with exactly the fields the two senders pass
to the `ControlPacket` constructor: mode tag, two flags, and the
position / velocity / acceleration / attitude / attitude_rate slots. -/
structure ControlPacket where
  mode : SetpointMode
  enable_flag : Bool
  yaw_control_flag : Bool
  position : ℚ × ℚ × ℚ
  velocity : ℚ × ℚ × ℚ
  acceleration : ℚ × ℚ × ℚ
  attitude : ℚ × ℚ × ℚ × ℚ
  attitude_rate : ℚ × ℚ × ℚ
deriving DecidableEq, Repr

/-- Keys handled by the two senders' event loops: the five command keys
(q, e, c, m, h) and the eight axis keys (w, s, a, d and the four
arrows). -/
inductive Key where
  | w | s | a | d | up | down | left | right
  | q | e | c | m | h
deriving DecidableEq, Repr

/-- An input event as seen by a sender's event loop: a key going down or
a key going up. -/
inductive Event where
  | keydown (k : Key)
  | keyup (k : Key)
deriving DecidableEq, Repr

/-- True exactly for the eight directional axis keys. -/
def Key.isAxis : Key → Bool
  | .w | .s | .a | .d | .up | .down | .left | .right => true
  | _ => false

/-- True for the one event that makes the loop terminate from the
keyboard: pressing `q` sets `running = False`. -/
def Event.terminates : Event → Bool
  | .keydown .q => true
  | _ => false

namespace Att

/-- Constant `ROLL_PITCH_STEP = 2.0` of the attitude sender. -/
def ROLL_PITCH_STEP : ℚ := 2

/-- Constant `YAW_RATE_STEP = 5.0` of the attitude sender. -/
def YAW_RATE_STEP : ℚ := 5

/-- Constant `THRUST_STEP = 0.02` of the attitude sender. -/
def THRUST_STEP : ℚ := 1 / 50

/-- Mutable state of the attitude sender: the module-level variables
`roll, pitch, yaw, thrust`, `enabled` and `INCREMENTAL_MODE`. -/
structure AttState where
  roll : ℚ
  pitch : ℚ
  yaw : ℚ
  thrust : ℚ
  enabled : Bool
  incremental : Bool
deriving DecidableEq, Repr

/-- Initial state: `roll, pitch, yaw, thrust = 0, 0, 0, 0.5`,
`enabled = False`, `INCREMENTAL_MODE = False`. -/
def initState : AttState := ⟨0, 0, 0, 1 / 2, false, false⟩

/-- Packet built by `send_attitude(roll, pitch, yaw, thrust)`: attitude
mode, `enable_flag=True`, `yaw_control_flag=True`, all other slots
zero. -/
def send_attitude (roll pitch yaw thrust : ℚ) : ControlPacket :=
  { mode := SetpointMode.ATTITUDE_CONTROL
    enable_flag := true
    yaw_control_flag := true
    position := (0, 0, 0)
    velocity := (0, 0, 0)
    acceleration := (0, 0, 0)
    attitude := (roll, pitch, yaw, thrust)
    attitude_rate := (0, 0, 0) }

/-- Handler `enable_control`: sets `enabled = True`. -/
def enable_control (s : AttState) : AttState := { s with enabled := true }

/-- State effect of `disable_control`: sets `enabled = False` (the
packet it sends is modelled in `emit`). -/
def disable_control (s : AttState) : AttState := { s with enabled := false }

/-- Handler `reset_control` (Hold): resets all axes to neutral,
`roll, pitch, yaw, thrust = 0, 0, 0, 0.5`. -/
def reset_control (s : AttState) : AttState :=
  { s with roll := 0, pitch := 0, yaw := 0, thrust := 1 / 2 }

/-- Handler `adjust_pitch_up`:
`pitch -= ROLL_PITCH_STEP if INCREMENTAL_MODE else -ROLL_PITCH_STEP`. -/
def adjust_pitch_up (s : AttState) : AttState :=
  { s with pitch := s.pitch - (if s.incremental then ROLL_PITCH_STEP else -ROLL_PITCH_STEP) }

/-- Handler `adjust_pitch_down`:
`pitch -= ROLL_PITCH_STEP if INCREMENTAL_MODE else ROLL_PITCH_STEP`. -/
def adjust_pitch_down (s : AttState) : AttState :=
  { s with pitch := s.pitch - (if s.incremental then ROLL_PITCH_STEP else ROLL_PITCH_STEP) }

/-- Handler `adjust_roll_left`:
`roll -= ROLL_PITCH_STEP if INCREMENTAL_MODE else -ROLL_PITCH_STEP`. -/
def adjust_roll_left (s : AttState) : AttState :=
  { s with roll := s.roll - (if s.incremental then ROLL_PITCH_STEP else -ROLL_PITCH_STEP) }

/-- Handler `adjust_roll_right`:
`roll += ROLL_PITCH_STEP if INCREMENTAL_MODE else ROLL_PITCH_STEP`. -/
def adjust_roll_right (s : AttState) : AttState :=
  { s with roll := s.roll + (if s.incremental then ROLL_PITCH_STEP else ROLL_PITCH_STEP) }

/-- Handler `increase_thrust`: `thrust = min(thrust + THRUST_STEP, 1.0)`. -/
def increase_thrust (s : AttState) : AttState :=
  { s with thrust := min (s.thrust + THRUST_STEP) 1 }

/-- Handler `decrease_thrust`: `thrust = max(thrust - THRUST_STEP, 0)`. -/
def decrease_thrust (s : AttState) : AttState :=
  { s with thrust := max (s.thrust - THRUST_STEP) 0 }

/-- Handler `yaw_left`:
`yaw -= YAW_RATE_STEP if not INCREMENTAL_MODE else (yaw - YAW_RATE_STEP)`. -/
def yaw_left (s : AttState) : AttState :=
  { s with yaw := s.yaw - (if !s.incremental then YAW_RATE_STEP else s.yaw - YAW_RATE_STEP) }

/-- Handler `yaw_right`:
`yaw += YAW_RATE_STEP if not INCREMENTAL_MODE else (yaw + YAW_RATE_STEP)`. -/
def yaw_right (s : AttState) : AttState :=
  { s with yaw := s.yaw + (if !s.incremental then YAW_RATE_STEP else s.yaw + YAW_RATE_STEP) }

/-- Handler `toggle_mode`: `INCREMENTAL_MODE = not INCREMENTAL_MODE`. -/
def toggle_mode (s : AttState) : AttState := { s with incremental := !s.incremental }

/-- Handler `reset_roll`: `roll = 0`. -/
def reset_roll (s : AttState) : AttState := { s with roll := 0 }

/-- Handler `reset_pitch`: `pitch = 0`. -/
def reset_pitch (s : AttState) : AttState := { s with pitch := 0 }

/-- Handler `reset_thrust`: its body is commented out in the source and
replaced by `pass`, so it changes nothing. -/
def reset_thrust (s : AttState) : AttState := s

/-- Handler `reset_yaw`: `yaw = 0`. -/
def reset_yaw (s : AttState) : AttState := { s with yaw := 0 }

/-- One step of the attitude sender's event dispatch in `main`: on
KEYDOWN the command keys q/e/c/m/h run first, then the axis keys run
only `if enabled` (reading the possibly-updated flag); on KEYUP the
per-axis reset runs only `if not INCREMENTAL_MODE`. -/
def step (s : AttState) : Event → AttState
  | .keydown k =>
    let s1 :=
      match k with
      | .q => s
      | .e => enable_control s
      | .c => disable_control s
      | .m => toggle_mode s
      | .h => reset_control s
      | _ => s
    if s1.enabled then
      match k with
      | .w => adjust_pitch_up s1
      | .s => adjust_pitch_down s1
      | .a => adjust_roll_left s1
      | .d => adjust_roll_right s1
      | .up => increase_thrust s1
      | .down => decrease_thrust s1
      | .left => yaw_left s1
      | .right => yaw_right s1
      | _ => s1
    else s1
  | .keyup k =>
    if !s.incremental then
      match k with
      | .w | .s => reset_pitch s
      | .a | .d => reset_roll s
      | .up | .down => reset_thrust s
      | .left | .right => reset_yaw s
      | _ => s
    else s

/-- Packets sent synchronously by the event handlers themselves: `q`
(`send_attitude(0, 0, 0, 0)` before `running = False`) and `c`
(`disable_control` calls `send_attitude(0, 0, 0, 0)`).  No other
handler sends. -/
def emit (_s : AttState) : Event → List ControlPacket
  | .keydown .q => [send_attitude 0 0 0 0]
  | .keydown .c => [send_attitude 0 0 0 0]
  | _ => []

/-- Per-tick transmission at the bottom of the main loop:
`if enabled: send_attitude(roll, pitch, yaw, thrust)`. -/
def tickPacket (s : AttState) : Option ControlPacket :=
  if s.enabled then some (send_attitude s.roll s.pitch s.yaw s.thrust) else none

end Att

namespace Vel

/-- Constant `DEFAULT_SPEED = 1.0` of the body-velocity sender. -/
def DEFAULT_SPEED : ℚ := 1

/-- Constant `YAW_RATE_STEP = 5.0` of the body-velocity sender. -/
def YAW_RATE_STEP : ℚ := 5

/-- Mutable state of the body-velocity sender: the module-level
variables `velocity_x, velocity_y, velocity_z, yaw_rate`, `enabled` and
`INCREMENTAL_MODE`. -/
structure VelState where
  velocity_x : ℚ
  velocity_y : ℚ
  velocity_z : ℚ
  yaw_rate : ℚ
  enabled : Bool
  incremental : Bool
deriving DecidableEq, Repr

/-- Initial state: all four axes 0, `enabled = False`,
`INCREMENTAL_MODE = False`. -/
def initState : VelState := ⟨0, 0, 0, 0, false, false⟩

/-- Packet built by `send_velocity_body(vx, vy, vz, yaw_rate)`:
velocity-body mode, `enable_flag=True`, `yaw_control_flag=True`, the
yaw rate carried in the last `attitude_rate` slot, all other slots
zero. -/
def send_velocity_body (vx vy vz yaw_rate : ℚ) : ControlPacket :=
  { mode := SetpointMode.VELOCITY_BODY
    enable_flag := true
    yaw_control_flag := true
    position := (0, 0, 0)
    velocity := (vx, vy, vz)
    acceleration := (0, 0, 0)
    attitude := (0, 0, 0, 0)
    attitude_rate := (0, 0, yaw_rate) }

/-- Handler `enable_control`: sets `enabled = True`. -/
def enable_control (s : VelState) : VelState := { s with enabled := true }

/-- State effect of `disable_control`: sets `enabled = False` (the
packet it sends is modelled in `emit`). -/
def disable_control (s : VelState) : VelState := { s with enabled := false }

/-- Handler `reset_control` (Hold): zeroes all four axes. -/
def reset_control (s : VelState) : VelState :=
  { s with velocity_x := 0, velocity_y := 0, velocity_z := 0, yaw_rate := 0 }

/-- Handler `move_forward`:
`velocity_x = velocity_x + DEFAULT_SPEED if INCREMENTAL_MODE else DEFAULT_SPEED`. -/
def move_forward (s : VelState) : VelState :=
  { s with velocity_x := if s.incremental then s.velocity_x + DEFAULT_SPEED else DEFAULT_SPEED }

/-- Handler `move_backward`:
`velocity_x = velocity_x - DEFAULT_SPEED if INCREMENTAL_MODE else -DEFAULT_SPEED`. -/
def move_backward (s : VelState) : VelState :=
  { s with velocity_x := if s.incremental then s.velocity_x - DEFAULT_SPEED else -DEFAULT_SPEED }

/-- Handler `move_left`:
`velocity_y = velocity_y - DEFAULT_SPEED if INCREMENTAL_MODE else -DEFAULT_SPEED`. -/
def move_left (s : VelState) : VelState :=
  { s with velocity_y := if s.incremental then s.velocity_y - DEFAULT_SPEED else -DEFAULT_SPEED }

/-- Handler `move_right`:
`velocity_y = velocity_y + DEFAULT_SPEED if INCREMENTAL_MODE else DEFAULT_SPEED`. -/
def move_right (s : VelState) : VelState :=
  { s with velocity_y := if s.incremental then s.velocity_y + DEFAULT_SPEED else DEFAULT_SPEED }

/-- Handler `ascend`:
`velocity_z = velocity_z - DEFAULT_SPEED if INCREMENTAL_MODE else -DEFAULT_SPEED`. -/
def ascend (s : VelState) : VelState :=
  { s with velocity_z := if s.incremental then s.velocity_z - DEFAULT_SPEED else -DEFAULT_SPEED }

/-- Handler `descend`:
`velocity_z = velocity_z + DEFAULT_SPEED if INCREMENTAL_MODE else DEFAULT_SPEED`. -/
def descend (s : VelState) : VelState :=
  { s with velocity_z := if s.incremental then s.velocity_z + DEFAULT_SPEED else DEFAULT_SPEED }

/-- Handler `yaw_left`:
`yaw_rate = -YAW_RATE_STEP if not INCREMENTAL_MODE else (yaw_rate - YAW_RATE_STEP)`. -/
def yaw_left (s : VelState) : VelState :=
  { s with yaw_rate := if !s.incremental then -YAW_RATE_STEP else s.yaw_rate - YAW_RATE_STEP }

/-- Handler `yaw_right`:
`yaw_rate = YAW_RATE_STEP if not INCREMENTAL_MODE else (yaw_rate + YAW_RATE_STEP)`. -/
def yaw_right (s : VelState) : VelState :=
  { s with yaw_rate := if !s.incremental then YAW_RATE_STEP else s.yaw_rate + YAW_RATE_STEP }

/-- Handler `toggle_mode`: `INCREMENTAL_MODE = not INCREMENTAL_MODE`. -/
def toggle_mode (s : VelState) : VelState := { s with incremental := !s.incremental }

/-- Handler `reset_velocity_x`: `velocity_x = 0`. -/
def reset_velocity_x (s : VelState) : VelState := { s with velocity_x := 0 }

/-- Handler `reset_velocity_y`: `velocity_y = 0`. -/
def reset_velocity_y (s : VelState) : VelState := { s with velocity_y := 0 }

/-- Handler `reset_velocity_z`: `velocity_z = 0`. -/
def reset_velocity_z (s : VelState) : VelState := { s with velocity_z := 0 }

/-- Handler `reset_yaw_rate`: `yaw_rate = 0`. -/
def reset_yaw_rate (s : VelState) : VelState := { s with yaw_rate := 0 }

/-- One step of the body-velocity sender's event dispatch in `main`,
with the same shape as the attitude sender's: command keys first, axis
keys gated on `enabled`, KEYUP resets gated on
`not INCREMENTAL_MODE`. -/
def step (s : VelState) : Event → VelState
  | .keydown k =>
    let s1 :=
      match k with
      | .q => s
      | .e => enable_control s
      | .c => disable_control s
      | .m => toggle_mode s
      | .h => reset_control s
      | _ => s
    if s1.enabled then
      match k with
      | .w => move_forward s1
      | .s => move_backward s1
      | .a => move_left s1
      | .d => move_right s1
      | .up => ascend s1
      | .down => descend s1
      | .left => yaw_left s1
      | .right => yaw_right s1
      | _ => s1
    else s1
  | .keyup k =>
    if !s.incremental then
      match k with
      | .w | .s => reset_velocity_x s
      | .a | .d => reset_velocity_y s
      | .up | .down => reset_velocity_z s
      | .left | .right => reset_yaw_rate s
      | _ => s
    else s

/-- Packets sent synchronously by the event handlers: `q` and `c` both
send `send_velocity_body(0, 0, 0, 0)`. -/
def emit (_s : VelState) : Event → List ControlPacket
  | .keydown .q => [send_velocity_body 0 0 0 0]
  | .keydown .c => [send_velocity_body 0 0 0 0]
  | _ => []

/-- Per-tick transmission:
`if enabled: send_velocity_body(velocity_x, velocity_y, velocity_z, yaw_rate)`. -/
def tickPacket (s : VelState) : Option ControlPacket :=
  if s.enabled then
    some (send_velocity_body s.velocity_x s.velocity_y s.velocity_z s.yaw_rate)
  else none

end Vel

namespace Codec

/-- Modelled from the spec: the codec module `control_packet.py` (the
`ControlPacket.pack` / unpack pair imported by both senders) is not
under `src/`, so its encoder is modelled from spec section 4.1: a
fixed-length buffer, constant for all modes, with a fixed slot order
(mode tag, the two flags, then every numeric field of the packet,
unused subsets present but zeroed by the producer, not omitted). Each
fixed-width slot of the buffer is modelled as one rational. -/
def encode (p : ControlPacket) : List ℚ :=
  [modeTag p.mode,
   flagVal p.enable_flag, flagVal p.yaw_control_flag,
   p.position.1, p.position.2.1, p.position.2.2,
   p.velocity.1, p.velocity.2.1, p.velocity.2.2,
   p.acceleration.1, p.acceleration.2.1, p.acceleration.2.2,
   p.attitude.1, p.attitude.2.1, p.attitude.2.2.1, p.attitude.2.2.2,
   p.attitude_rate.1, p.attitude_rate.2.1, p.attitude_rate.2.2]
where
  /-- Modelled from the spec: pinned integer values of the
  `SetpointMode` enumeration. -/
  modeTag : SetpointMode → ℚ
    | .ATTITUDE_CONTROL => 1
    | .VELOCITY_BODY => 2
  /-- Modelled from the spec: boolean flags travel as fixed-width
  numeric slots. -/
  flagVal : Bool → ℚ
    | true => 1
    | false => 0

/-- Decode-side failure, spec section 7: buffer size or mode tag
invalid. -/
inductive DecodeError where
  | MalformedPacket
deriving DecidableEq, Repr

/-- Modelled from the spec: decoding reads the mode tag first, fails
with `MalformedPacket` when the buffer length does not match the
expected constant size or when the mode tag matches no enumeration
value, and never rejects out-of-range numeric values. -/
def decode (buf : List ℚ) : Except DecodeError ControlPacket :=
  match buf with
  | [t, e, y, px, py, pz, vx, vy, vz, ax, ay, az, ro, pi, ya, th, rr, pr, yr] =>
    match tagMode t with
    | some m =>
      .ok { mode := m
            enable_flag := if e = 0 then false else true
            yaw_control_flag := if y = 0 then false else true
            position := (px, py, pz)
            velocity := (vx, vy, vz)
            acceleration := (ax, ay, az)
            attitude := (ro, pi, ya, th)
            attitude_rate := (rr, pr, yr) }
    | none => .error .MalformedPacket
  | _ => .error .MalformedPacket
where
  /-- Modelled from the spec: inverse of the pinned mode tags. -/
  tagMode (t : ℚ) : Option SetpointMode :=
    if t = 1 then some .ATTITUDE_CONTROL
    else if t = 2 then some .VELOCITY_BODY
    else none

end Codec

/-- Claim C1, counterexample: the claim requires the packet emitted on
Disable to have `enable_flag = false`, and Quit to behave identically
to Disable; on the code, `send_attitude` hardcodes `enable_flag=True`
on every packet (so the Disable packet carries `enable_flag = true`),
and the `q` handler, unlike Disable, leaves `enabled` set. -/
theorem C1_counterexample :
    ((Att.emit ⟨1, 2, 3, 7 / 10, true, false⟩ (Event.keydown Key.c)).map
        ControlPacket.enable_flag = [true]) ∧
    (Att.step ⟨1, 2, 3, 7 / 10, true, false⟩ (Event.keydown Key.q)).enabled = true := by
  exact ⟨rfl, rfl⟩

/-- Claim C1, amended: for every state, Disable emits exactly one
packet whose mode fields are all zero, regardless of the current axis
values, but with `enable_flag = true` (hardcoded by the send
functions); Disable clears `enabled`; Quit emits the identical single
packet and then terminates, leaving `enabled` unchanged.  Both senders
behave this way. -/
theorem C1_disable_quit (s : Att.AttState) (v : Vel.VelState) :
    Att.emit s (Event.keydown Key.c) = [Att.send_attitude 0 0 0 0] ∧
    Att.emit s (Event.keydown Key.q) = [Att.send_attitude 0 0 0 0] ∧
    (Att.send_attitude 0 0 0 0).enable_flag = true ∧
    (Att.send_attitude 0 0 0 0).attitude = (0, 0, 0, 0) ∧
    (Att.send_attitude 0 0 0 0).position = (0, 0, 0) ∧
    (Att.send_attitude 0 0 0 0).velocity = (0, 0, 0) ∧
    (Att.send_attitude 0 0 0 0).acceleration = (0, 0, 0) ∧
    (Att.send_attitude 0 0 0 0).attitude_rate = (0, 0, 0) ∧
    (Att.step s (Event.keydown Key.c)).enabled = false ∧
    Event.terminates (Event.keydown Key.q) = true ∧
    Vel.emit v (Event.keydown Key.c) = [Vel.send_velocity_body 0 0 0 0] ∧
    Vel.emit v (Event.keydown Key.q) = [Vel.send_velocity_body 0 0 0 0] ∧
    (Vel.send_velocity_body 0 0 0 0).enable_flag = true ∧
    (Vel.send_velocity_body 0 0 0 0).velocity = (0, 0, 0) ∧
    (Vel.send_velocity_body 0 0 0 0).attitude_rate = (0, 0, 0) ∧
    (Vel.step v (Event.keydown Key.c)).enabled = false := by
  exact ⟨rfl, rfl, rfl, rfl, rfl, rfl, rfl, rfl, rfl, rfl, rfl, rfl, rfl, rfl, rfl, rfl⟩

/-- Claim C2, counterexample: in the attitude sender under the
instant-reset law (enabled, not incremental), a roll-right press on a
state whose roll already sits at the fixed offset 2 yields roll 4 — the
press adds the step to the current value instead of driving the axis to
the fixed offset; and releasing the thrust key leaves thrust at 0.7
instead of snapping it back to neutral 0.5. -/
theorem C2_counterexample :
    (Att.step ⟨2, 0, 0, 1 / 2, true, false⟩ (Event.keydown Key.d)).roll = 4 ∧
    (Att.step ⟨0, 0, 0, 7 / 10, true, false⟩ (Event.keyup Key.up)).thrust = 7 / 10 := by
  constructor
  · norm_num [Att.step, Att.adjust_roll_right, Att.ROLL_PITCH_STEP]
  · norm_num [Att.step, Att.reset_thrust]

/-- Claim C2, amended: under the instant-reset law, in the velocity
sender an axis-press sets the axis to the fixed offset from neutral
(independent of the current value, so repeated presses do not
accumulate) and the matching release snaps the axis back to 0; in the
attitude sender a roll press adds the constant step to the current
value (so repeated presses accumulate), the releases snap roll, pitch
and yaw back to 0, and the thrust release leaves thrust unchanged (no
snap back to 0.5). -/
theorem C2_instant_reset_law (s : Att.AttState) (v : Vel.VelState)
    (hae : s.enabled = true) (hai : s.incremental = false)
    (hve : v.enabled = true) (hvi : v.incremental = false) :
    ((Vel.step v (Event.keydown Key.w)).velocity_x = Vel.DEFAULT_SPEED ∧
     (Vel.step v (Event.keydown Key.s)).velocity_x = -Vel.DEFAULT_SPEED ∧
     (Vel.step v (Event.keydown Key.a)).velocity_y = -Vel.DEFAULT_SPEED ∧
     (Vel.step v (Event.keydown Key.d)).velocity_y = Vel.DEFAULT_SPEED ∧
     (Vel.step v (Event.keydown Key.up)).velocity_z = -Vel.DEFAULT_SPEED ∧
     (Vel.step v (Event.keydown Key.down)).velocity_z = Vel.DEFAULT_SPEED ∧
     (Vel.step v (Event.keydown Key.left)).yaw_rate = -Vel.YAW_RATE_STEP ∧
     (Vel.step v (Event.keydown Key.right)).yaw_rate = Vel.YAW_RATE_STEP ∧
     (Vel.step v (Event.keyup Key.w)).velocity_x = 0 ∧
     (Vel.step v (Event.keyup Key.a)).velocity_y = 0 ∧
     (Vel.step v (Event.keyup Key.up)).velocity_z = 0 ∧
     (Vel.step v (Event.keyup Key.left)).yaw_rate = 0) ∧
    ((Att.step s (Event.keydown Key.d)).roll = s.roll + Att.ROLL_PITCH_STEP ∧
     (Att.step s (Event.keydown Key.a)).roll = s.roll + Att.ROLL_PITCH_STEP ∧
     (Att.step s (Event.keyup Key.a)).roll = 0 ∧
     (Att.step s (Event.keyup Key.w)).pitch = 0 ∧
     (Att.step s (Event.keyup Key.left)).yaw = 0 ∧
     (Att.step s (Event.keyup Key.up)).thrust = s.thrust) := by
  refine ⟨⟨?_, ?_, ?_, ?_, ?_, ?_, ?_, ?_, ?_, ?_, ?_, ?_⟩, ?_, ?_, ?_, ?_, ?_, ?_⟩ <;>
    simp [Att.step, Vel.step, Vel.move_forward, Vel.move_backward, Vel.move_left,
      Vel.move_right, Vel.ascend, Vel.descend, Vel.yaw_left, Vel.yaw_right,
      Vel.reset_velocity_x, Vel.reset_velocity_y, Vel.reset_velocity_z, Vel.reset_yaw_rate,
      Att.adjust_roll_left, Att.adjust_roll_right, Att.reset_roll, Att.reset_pitch,
      Att.reset_yaw, Att.reset_thrust, hae, hai, hve, hvi]

/-- Claim C2, witness: applying the amended instant-reset law at
concrete enabled, non-incremental states. -/
theorem C2_witness :
    (Vel.step ⟨0, 0, 0, 0, true, false⟩ (Event.keydown Key.w)).velocity_x
      = Vel.DEFAULT_SPEED ∧
    (Att.step ⟨0, 0, 0, 1 / 2, true, false⟩ (Event.keydown Key.d)).roll
      = 0 + Att.ROLL_PITCH_STEP := by
  have h := C2_instant_reset_law ⟨0, 0, 0, 1 / 2, true, false⟩ ⟨0, 0, 0, 0, true, false⟩
    rfl rfl rfl rfl
  exact ⟨h.1.1, h.2.1⟩

/-- Claim C3, divergence of the code at the failing input: in the
attitude sender under the incremental law, `yaw_right` executes
`yaw += (yaw + YAW_RATE_STEP)`, so from yaw = 5 a yaw-right press
yields 15 (a change of 10, not of ±YAW_RATE_STEP), and `yaw_left`
executes `yaw -= (yaw - YAW_RATE_STEP)`, which sets yaw to the
constant YAW_RATE_STEP (from 20 a yaw-left press yields 5, a change of
-15).  The sibling velocity sender assigns instead of adding, which is
the behaviour the claim describes. -/
theorem C3_incremental_yaw_divergence :
    (Att.step ⟨0, 0, 5, 1 / 2, true, true⟩ (Event.keydown Key.right)).yaw = 15 ∧
    (Att.step ⟨0, 0, 5, 1 / 2, true, true⟩ (Event.keydown Key.right)).yaw - 5
      ≠ Att.YAW_RATE_STEP ∧
    (Att.step ⟨0, 0, 5, 1 / 2, true, true⟩ (Event.keydown Key.right)).yaw - 5
      ≠ -Att.YAW_RATE_STEP ∧
    (Att.step ⟨0, 0, 20, 1 / 2, true, true⟩ (Event.keydown Key.left)).yaw = 5 ∧
    (Vel.step ⟨0, 0, 0, 5, true, true⟩ (Event.keydown Key.right)).yaw_rate = 5 + Vel.YAW_RATE_STEP := by
  refine ⟨?_, ?_, ?_, ?_, ?_⟩ <;>
    norm_num [Att.step, Att.yaw_right, Att.yaw_left, Att.YAW_RATE_STEP,
      Vel.step, Vel.yaw_right, Vel.YAW_RATE_STEP]

/-- Claim C4, counterexample: a roll-key release arriving while
`enabled = false` (instant-reset mode, roll = 2) is not ignored: the
KEYUP branch is gated only on the mode, so it resets roll to 0. -/
theorem C4_counterexample :
    (Att.step ⟨2, 0, 0, 1 / 2, false, false⟩ (Event.keyup Key.d)).roll ≠ 2 := by
  norm_num [Att.step, Att.reset_roll]

/-- Claim C4, amended: an axis-press arriving while `enabled = false`
leaves the state of either sender unchanged (silently ignored, no
queued effect), but axis-release events are not gated on `enabled`:
when the incremental law is off they reset the corresponding axis even
while disabled, and when it is on they are no-ops. -/
theorem C4_disabled_events (s : Att.AttState) (v : Vel.VelState) (k : Key)
    (ha : s.enabled = false) (hv : v.enabled = false) (hk : k.isAxis = true) :
    Att.step s (Event.keydown k) = s ∧
    Vel.step v (Event.keydown k) = v ∧
    (s.incremental = false →
      (Att.step s (Event.keyup Key.a)).roll = 0 ∧
      (Att.step s (Event.keyup Key.w)).pitch = 0 ∧
      (Att.step s (Event.keyup Key.left)).yaw = 0) ∧
    (s.incremental = true → Att.step s (Event.keyup k) = s) := by
  cases k <;>
    simp_all [Att.step, Vel.step, Key.isAxis, Att.reset_roll, Att.reset_pitch,
      Att.reset_yaw, Att.reset_thrust]

/-- Claim C4, witness: applying the amended statement at concrete
disabled states with the `w` key. -/
theorem C4_witness :
    Att.step ⟨9, 9, 9, 1 / 2, false, true⟩ (Event.keydown Key.w)
      = ⟨9, 9, 9, 1 / 2, false, true⟩ ∧
    Vel.step ⟨1, 1, 1, 1, false, false⟩ (Event.keydown Key.w)
      = ⟨1, 1, 1, 1, false, false⟩ := by
  have h := C4_disabled_events ⟨9, 9, 9, 1 / 2, false, true⟩ ⟨1, 1, 1, 1, false, false⟩
    Key.w rfl rfl rfl
  exact ⟨h.1, h.2.1⟩

/-- Claim C5: the thrust value always stays within [0, 1]: the initial
thrust 0.5 is in range, and every event (in particular any
increase-thrust / decrease-thrust press, whose handlers clamp with
`min`/`max`) maps a state with in-range thrust to a state with
in-range thrust. -/
theorem C5_thrust_clamp :
    (0 ≤ Att.initState.thrust ∧ Att.initState.thrust ≤ 1) ∧
    ∀ (s : Att.AttState) (e : Event), 0 ≤ s.thrust → s.thrust ≤ 1 →
      0 ≤ (Att.step s e).thrust ∧ (Att.step s e).thrust ≤ 1 := by
  constructor
  · constructor <;> norm_num [Att.initState]
  · intro s e h0 h1
    have hstep : (Att.step s e).thrust = s.thrust ∨ (Att.step s e).thrust = 1 / 2 ∨
        (Att.step s e).thrust = min (s.thrust + 1 / 50) 1 ∨
        (Att.step s e).thrust = max (s.thrust - 1 / 50) 0 := by
      cases e with
      | keydown k =>
        cases k <;> by_cases he : s.enabled <;>
          simp [Att.step, Att.enable_control, Att.disable_control, Att.toggle_mode,
            Att.reset_control, Att.adjust_pitch_up, Att.adjust_pitch_down,
            Att.adjust_roll_left, Att.adjust_roll_right, Att.increase_thrust,
            Att.decrease_thrust, Att.yaw_left, Att.yaw_right, Att.THRUST_STEP, he]
      | keyup k =>
        cases k <;> by_cases hi : s.incremental <;>
          simp [Att.step, Att.reset_pitch, Att.reset_roll, Att.reset_thrust,
            Att.reset_yaw, hi]
    rcases hstep with h | h | h | h <;> rw [h]
    · exact ⟨h0, h1⟩
    · norm_num
    · exact ⟨le_min (by linarith) (by norm_num), min_le_right _ _⟩
    · exact ⟨le_max_right _ _, max_le (by linarith) (by norm_num)⟩

/-- Claim C5, witness: the preservation part applied at the initial
state with an increase-thrust press. -/
theorem C5_witness :
    0 ≤ (Att.step Att.initState (Event.keydown Key.up)).thrust ∧
    (Att.step Att.initState (Event.keydown Key.up)).thrust ≤ 1 :=
  C5_thrust_clamp.2 Att.initState (Event.keydown Key.up)
    (by norm_num [Att.initState]) (by norm_num [Att.initState])

/-- Claim C6: mode purity.  Every packet the attitude sender builds
(`send_attitude`, used by the tick, by Disable and by Quit) has zero
position, velocity, acceleration and attitude_rate; every packet the
velocity sender builds (`send_velocity_body`) has zero position,
acceleration and attitude, and zero in the roll-rate and pitch-rate
slots of attitude_rate, with only the yaw-rate slot carrying data. -/
theorem C6_mode_purity (r p y t vx vy vz yr : ℚ) :
    (Att.send_attitude r p y t).mode = SetpointMode.ATTITUDE_CONTROL ∧
    (Att.send_attitude r p y t).position = (0, 0, 0) ∧
    (Att.send_attitude r p y t).velocity = (0, 0, 0) ∧
    (Att.send_attitude r p y t).acceleration = (0, 0, 0) ∧
    (Att.send_attitude r p y t).attitude_rate = (0, 0, 0) ∧
    (Att.send_attitude r p y t).attitude = (r, p, y, t) ∧
    (Vel.send_velocity_body vx vy vz yr).mode = SetpointMode.VELOCITY_BODY ∧
    (Vel.send_velocity_body vx vy vz yr).position = (0, 0, 0) ∧
    (Vel.send_velocity_body vx vy vz yr).acceleration = (0, 0, 0) ∧
    (Vel.send_velocity_body vx vy vz yr).attitude = (0, 0, 0, 0) ∧
    (Vel.send_velocity_body vx vy vz yr).attitude_rate = (0, 0, yr) ∧
    (Vel.send_velocity_body vx vy vz yr).velocity = (vx, vy, vz) := by
  exact ⟨rfl, rfl, rfl, rfl, rfl, rfl, rfl, rfl, rfl, rfl, rfl, rfl⟩

/-- Claim C7: round-trip of the (spec-modelled) codec — encoding any
valid Command Packet yields a buffer of the constant length 19, and
decoding that buffer returns exactly the original packet. -/
theorem C7_codec_roundtrip (p : ControlPacket) :
    (Codec.encode p).length = 19 ∧
    Codec.decode (Codec.encode p) = Except.ok p := by
  obtain ⟨m, e, y, ⟨px, py, pz⟩, ⟨vx, vy, vz⟩, ⟨ax, ay, az⟩, ⟨ro, pi, ya, th⟩,
    ⟨rr, pr, yr⟩⟩ := p
  refine ⟨rfl, ?_⟩
  cases m <;> cases e <;> cases y <;>
    norm_num [Codec.encode, Codec.decode, Codec.encode.modeTag, Codec.encode.flagVal,
      Codec.decode.tagMode]

/-- Claim C8: a ToggleMode event (the `m` key) flips the incremental
flag and changes nothing else in either sender: all axis values and
the enabled flag are unchanged, so a value accumulated under the
incremental law persists across the toggle. -/
theorem C8_toggle_mode (s : Att.AttState) (v : Vel.VelState) :
    (Att.step s (Event.keydown Key.m)).incremental = !s.incremental ∧
    (Att.step s (Event.keydown Key.m)).roll = s.roll ∧
    (Att.step s (Event.keydown Key.m)).pitch = s.pitch ∧
    (Att.step s (Event.keydown Key.m)).yaw = s.yaw ∧
    (Att.step s (Event.keydown Key.m)).thrust = s.thrust ∧
    (Att.step s (Event.keydown Key.m)).enabled = s.enabled ∧
    (Vel.step v (Event.keydown Key.m)).incremental = !v.incremental ∧
    (Vel.step v (Event.keydown Key.m)).velocity_x = v.velocity_x ∧
    (Vel.step v (Event.keydown Key.m)).velocity_y = v.velocity_y ∧
    (Vel.step v (Event.keydown Key.m)).velocity_z = v.velocity_z ∧
    (Vel.step v (Event.keydown Key.m)).yaw_rate = v.yaw_rate ∧
    (Vel.step v (Event.keydown Key.m)).enabled = v.enabled := by
  refine ⟨?_, ?_, ?_, ?_, ?_, ?_, ?_, ?_, ?_, ?_, ?_, ?_⟩ <;>
    simp [Att.step, Att.toggle_mode, Vel.step, Vel.toggle_mode]

/-- Claim C9: opposing direction inputs of the attitude sender do not
always produce opposite-sign changes: under the instant-reset law both
`adjust_roll_left` and `adjust_roll_right` add ROLL_PITCH_STEP to
roll, and under the incremental law both `adjust_pitch_up` and
`adjust_pitch_down` subtract ROLL_PITCH_STEP from pitch. -/
theorem C9_same_direction (s t : Att.AttState)
    (hs : s.incremental = false) (ht : t.incremental = true) :
    (Att.adjust_roll_left s).roll = s.roll + Att.ROLL_PITCH_STEP ∧
    (Att.adjust_roll_right s).roll = s.roll + Att.ROLL_PITCH_STEP ∧
    (Att.adjust_pitch_up t).pitch = t.pitch - Att.ROLL_PITCH_STEP ∧
    (Att.adjust_pitch_down t).pitch = t.pitch - Att.ROLL_PITCH_STEP := by
  refine ⟨?_, ?_, ?_, ?_⟩ <;>
    simp [Att.adjust_roll_left, Att.adjust_roll_right, Att.adjust_pitch_up,
      Att.adjust_pitch_down, hs, ht, sub_neg_eq_add]

/-- Claim C9, witness: the same-direction updates at concrete states
(instant-reset for roll, incremental for pitch). -/
theorem C9_witness :
    (Att.adjust_roll_left ⟨3, 0, 0, 1 / 2, true, false⟩).roll = 3 + Att.ROLL_PITCH_STEP ∧
    (Att.adjust_pitch_up ⟨0, 4, 0, 1 / 2, true, true⟩).pitch = 4 - Att.ROLL_PITCH_STEP := by
  have h := C9_same_direction ⟨3, 0, 0, 1 / 2, true, false⟩ ⟨0, 4, 0, 1 / 2, true, true⟩
    rfl rfl
  exact ⟨h.1, h.2.2.1⟩

/-- Claim C10: in the attitude sender, releasing a thrust key never
changes anything: `reset_thrust` is a no-op (its body is commented
out), so a thrust-key KEYUP leaves the whole state unchanged under
both control laws, and thrust does not snap back to 0.5. -/
theorem C10_thrust_release_noop (s : Att.AttState) :
    Att.reset_thrust s = s ∧
    Att.step s (Event.keyup Key.up) = s ∧
    Att.step s (Event.keyup Key.down) = s := by
  refine ⟨rfl, ?_, ?_⟩ <;> simp [Att.step, Att.reset_thrust]
